import Mathlib

/-!
Verification of the driver layer of the rust-esp32s3-lvgl-slider repository.

The repository's `src/main.rs` contains the integration glue: it constructs the
LCD panel driver and the GT911 touch controller, registers an LVGL display
flush callback and an LVGL pointer-input callback, and runs the tick loop.
The two leaf drivers (`lcd_panel.rs`, `gt911.rs`) are declared as modules of
the crate but their sources are not available here; they are modelled from the
specification, as marked on each such definition.  Everything taken from
`src/main.rs` cites its lines.
-/

namespace LvglSlider

/-- A pixel color value (the panel's native 16-bit RGB565 word, kept abstract
as a natural number). -/
abbrev Color := Nat

/-- The error taxonomy of the spec (section 7): bus, timing, construction,
region, underflow and transfer failures. -/
inductive DriverError
  | BusError
  | TimingError
  | ConfigError
  | RegionError
  | UnderflowError
  | TransferError
  deriving DecidableEq, Repr

/-- Modelled from the spec: `PanelConfig` of `lcd_panel.rs` (not under src/),
restricted to the geometry the claims need — horizontal and vertical
resolution of the panel. -/
structure PanelConfig where
  hres : Nat
  vres : Nat
  deriving DecidableEq, Repr

/-- A rectangular pixel region `(x1, y1, x2, y2)` in panel coordinates with
exclusive upper bounds, as passed to `set_pixels`. -/
structure PixelRegion where
  x1 : Nat
  y1 : Nat
  x2 : Nat
  y2 : Nat
  deriving DecidableEq, Repr

def PixelRegion.width (r : PixelRegion) : Nat := r.x2 - r.x1

def PixelRegion.height (r : PixelRegion) : Nat := r.y2 - r.y1

/-- The number of pixels a region spans: `width * height`. -/
def PixelRegion.pixelCount (r : PixelRegion) : Nat := r.width * r.height

/-- The panel's addressable frame store, addressed by `(x, y)`. -/
abbrev FrameStore := Nat → Nat → Color

/-- Row-major write of a color sequence into a region of the frame store,
starting at `(x1, y1)`.  Pixels past the end of the sequence keep their old
value (a shorter-than-region sequence writes only a prefix of the region). -/
def writeRegion (frame : FrameStore) (r : PixelRegion) (colors : List Color) :
    FrameStore :=
  fun x y =>
    if r.x1 ≤ x ∧ x < r.x2 ∧ r.y1 ≤ y ∧ y < r.y2 then
      colors.getD ((y - r.y1) * r.width + (x - r.x1)) (frame x y)
    else
      frame x y

/-- The observable outcome of one `set_pixels` call: the reported result, the
frame store afterwards, and how many colors were consumed from the sequence. -/
structure SetPixelsOut where
  result : Except DriverError Unit
  frame : FrameStore
  consumed : Nat

/-- Modelled from the spec: `LcdPanel::set_pixels_lvgl_color` of `lcd_panel.rs`
(not under src/), per spec section 4.2 — the region is validated against the
panel resolution first (out of bounds fails with `RegionError` before any
transfer); then exactly `width * height` colors are transferred row-major from
`(x1, y1)`; a sequence that runs out early fails with `UnderflowError`, the
partially written region being unspecified. -/
def set_pixels (cfg : PanelConfig) (frame : FrameStore) (r : PixelRegion)
    (colors : List Color) : SetPixelsOut :=
  if r.x2 > cfg.hres ∨ r.y2 > cfg.vres then
    ⟨.error .RegionError, frame, 0⟩
  else if colors.length < r.pixelCount then
    ⟨.error .UnderflowError, writeRegion frame r colors, colors.length⟩
  else
    ⟨.ok (), writeRegion frame r (colors.take r.pixelCount), r.pixelCount⟩

/-- **C1.** For every `PixelRegion` fully inside panel bounds, `set_pixels`
succeeds exactly when the color sequence yields at least `width * height`
elements, in which case it consumes exactly that many; a sequence that runs
out early fails with `UnderflowError`. -/
theorem set_pixels_consumes_exactly (cfg : PanelConfig) (frame : FrameStore)
    (r : PixelRegion) (colors : List Color)
    (hx1 : r.x1 < r.x2) (hy1 : r.y1 < r.y2)
    (hx : r.x2 ≤ cfg.hres) (hy : r.y2 ≤ cfg.vres) :
    ((set_pixels cfg frame r colors).result = .ok () ↔
      r.pixelCount ≤ colors.length) ∧
    (r.pixelCount ≤ colors.length →
      (set_pixels cfg frame r colors).consumed = r.pixelCount) ∧
    (colors.length < r.pixelCount →
      (set_pixels cfg frame r colors).result = .error .UnderflowError) := by
  have hin : ¬ (r.x2 > cfg.hres ∨ r.y2 > cfg.vres) := by omega
  by_cases hlen : colors.length < r.pixelCount
  · refine ⟨⟨?_, ?_⟩, ?_, ?_⟩ <;>
      simp [set_pixels, hin, hlen] <;> omega
  · refine ⟨⟨?_, ?_⟩, ?_, ?_⟩ <;>
      simp [set_pixels, hin, hlen] <;> omega

/-- Witness for C1 at the panel's own 800x480 resolution: a 4x3 region and a
12-color sequence. -/
theorem set_pixels_consumes_exactly_witness :
    ((set_pixels ⟨800, 480⟩ (fun _ _ => 0) ⟨0, 0, 4, 3⟩
        (List.replicate 12 5)).result = .ok () ↔
      PixelRegion.pixelCount ⟨0, 0, 4, 3⟩ ≤ (List.replicate 12 5).length) ∧
    (PixelRegion.pixelCount ⟨0, 0, 4, 3⟩ ≤ (List.replicate 12 5).length →
      (set_pixels ⟨800, 480⟩ (fun _ _ => 0) ⟨0, 0, 4, 3⟩
        (List.replicate 12 5)).consumed = PixelRegion.pixelCount ⟨0, 0, 4, 3⟩) ∧
    ((List.replicate 12 5).length < PixelRegion.pixelCount ⟨0, 0, 4, 3⟩ →
      (set_pixels ⟨800, 480⟩ (fun _ _ => 0) ⟨0, 0, 4, 3⟩
        (List.replicate 12 5)).result = .error .UnderflowError) :=
  set_pixels_consumes_exactly ⟨800, 480⟩ (fun _ _ => 0) ⟨0, 0, 4, 3⟩
    (List.replicate 12 5) (by decide) (by decide) (by decide) (by decide)

/-- **C2.** For every region exceeding the panel resolution, `set_pixels`
fails with `RegionError` and performs zero transfer side effects: the frame
store is unchanged and no color is consumed. -/
theorem set_pixels_oob_no_side_effects (cfg : PanelConfig) (frame : FrameStore)
    (r : PixelRegion) (colors : List Color)
    (h : r.x2 > cfg.hres ∨ r.y2 > cfg.vres) :
    (set_pixels cfg frame r colors).result = .error .RegionError ∧
    (set_pixels cfg frame r colors).frame = frame ∧
    (set_pixels cfg frame r colors).consumed = 0 := by
  simp [set_pixels, if_pos h]

/-- Witness for C2: a region whose x upper bound 900 exceeds the 800-pixel
horizontal resolution. -/
theorem set_pixels_oob_no_side_effects_witness :
    (set_pixels ⟨800, 480⟩ (fun _ _ => 0) ⟨0, 0, 900, 10⟩ []).result =
      .error .RegionError ∧
    (set_pixels ⟨800, 480⟩ (fun _ _ => 0) ⟨0, 0, 900, 10⟩ []).frame =
      (fun _ _ => 0) ∧
    (set_pixels ⟨800, 480⟩ (fun _ _ => 0) ⟨0, 0, 900, 10⟩ []).consumed = 0 :=
  set_pixels_oob_no_side_effects ⟨800, 480⟩ (fun _ _ => 0) ⟨0, 0, 900, 10⟩ []
    (by decide)

/-- Modelled from the spec: `PanelTimings` of `lcd_panel.rs` (not under src/) —
sync pulse widths, porches, and active-line counts per spec section 3. -/
structure PanelTimings where
  hsync_pulse_width : Nat
  vsync_pulse_width : Nat
  hsync_back_porch : Nat
  hsync_front_porch : Nat
  vsync_back_porch : Nat
  vsync_front_porch : Nat
  deriving DecidableEq, Repr

/-- Modelled from the spec: the structural timing validation performed at
`LcdPanel` construction (spec section 4.2) — non-zero sync pulse widths and a
non-degenerate active area. -/
def timingsValid (cfg : PanelConfig) (t : PanelTimings) : Bool :=
  t.hsync_pulse_width ≠ 0 && t.vsync_pulse_width ≠ 0 &&
    cfg.hres ≠ 0 && cfg.vres ≠ 0

/-- A hardware register write issued by the panel driver, recorded so that
all-or-nothing construction is observable. -/
inductive HwWrite
  | programTimings (cfg : PanelConfig) (t : PanelTimings)
  deriving DecidableEq, Repr

/-- A constructed panel driver handle: its immutable configuration and its
frame store. -/
structure LcdPanel where
  config : PanelConfig
  timings : PanelTimings
  frame : FrameStore

/-- The observable outcome of `LcdPanel::new`: the result and the list of
hardware register writes issued during construction. -/
structure NewPanelOut where
  result : Except DriverError LcdPanel
  hwWrites : List HwWrite

/-- Modelled from the spec: `LcdPanel::new` of `lcd_panel.rs` (not under
src/), per spec section 4.2 — validation of the timing parameters precedes
any register write; on failure it returns `ConfigError` having issued no
hardware write, on success it programs the timing generator. -/
def LcdPanel.new (cfg : PanelConfig) (t : PanelTimings) : NewPanelOut :=
  if timingsValid cfg t then
    ⟨.ok ⟨cfg, t, fun _ _ => 0⟩, [.programTimings cfg t]⟩
  else
    ⟨.error .ConfigError, []⟩

/-- **C3.** Whenever timing validation fails — in particular for every
`PanelTimings` whose horizontal sync pulse width is zero — construction
returns `ConfigError` and issues no hardware register write at all. -/
theorem panel_new_invalid_no_hw_writes (cfg : PanelConfig) (t : PanelTimings)
    (h : t.hsync_pulse_width = 0 ∨ timingsValid cfg t = false) :
    (LcdPanel.new cfg t).result = .error .ConfigError ∧
    (LcdPanel.new cfg t).hwWrites = [] := by
  have hv : timingsValid cfg t = false := by
    rcases h with h | h
    · simp [timingsValid, h]
    · exact h
  simp [LcdPanel.new, hv]

/-- Witness for C3: timings with a zero horizontal sync pulse width. -/
theorem panel_new_invalid_no_hw_writes_witness :
    (LcdPanel.new ⟨800, 480⟩ ⟨0, 4, 8, 8, 8, 8⟩).result =
      .error .ConfigError ∧
    (LcdPanel.new ⟨800, 480⟩ ⟨0, 4, 8, 8, 8, 8⟩).hwWrites = [] :=
  panel_new_invalid_no_hw_writes ⟨800, 480⟩ ⟨0, 4, 8, 8, 8, 8⟩
    (Or.inl (by decide))

/-- A single touch contact in panel pixel coordinates. -/
structure TouchPoint where
  x : Nat
  y : Nat
  deriving DecidableEq, Repr

/-- Modelled from the spec: the GT911 controller's register state as seen over
the bus (spec section 6) — a buffer-ready status flag, a reported point count,
and the first contact's raw coordinate registers. -/
structure Gt911Regs where
  bufferReady : Bool
  touchCount : Nat
  pointX : Nat
  pointY : Nat
  deriving DecidableEq, Repr

/-- Modelled from the spec: the known register state the controller returns to
after a hardware reset (spec section 4.1). -/
def resetRegs : Gt911Regs := ⟨false, 0, 0, 0⟩

/-- The touch controller handle's state: the controller register state it
faces and whether initialization (reset) has completed. -/
structure GT911 where
  regs : Gt911Regs
  initDone : Bool
  deriving DecidableEq, Repr

/-- A reset-line / delay operation of the documented reset pulse sequence. -/
inductive PinOp
  | driveLow
  | holdLow
  | driveHigh
  | holdHigh
  deriving DecidableEq, Repr

/-- The observable outcome of `GT911::reset`: the state afterwards and the
reset-line pulse sequence driven. -/
structure ResetOut where
  state : GT911
  pinOps : List PinOp
  deriving DecidableEq, Repr

/-- Modelled from the spec: `GT911::reset` of `gt911.rs` (not under src/), per
spec section 4.1 — drives the documented low-to-high pulse with its hold
times; the hardware reset returns the controller to the known register state,
so the resulting driver state does not depend on the prior state. -/
def GT911.reset (_s : GT911) : ResetOut :=
  ⟨⟨resetRegs, true⟩, [.driveLow, .holdLow, .driveHigh, .holdHigh]⟩

/-- `n` successive `reset` calls, threading the state. -/
def GT911.resetN : Nat → GT911 → GT911
  | 0, s => s
  | n + 1, s => GT911.resetN n (GT911.reset s).state

/-- Bus transactions `read_touch` can issue, in order. -/
inductive BusOp
  | readStatus
  | readPointRegs
  | writeAck
  deriving DecidableEq, Repr

/-- Modelled from the spec: the status test of `read_touch` — the status read
indicates valid touch data when the buffer-ready flag is set and at least one
point is reported. -/
def statusValid (r : Gt911Regs) : Bool :=
  r.bufferReady && decide (1 ≤ r.touchCount)

/-- The observable outcome of one `read_touch` call: the returned sample, the
driver/controller state afterwards, and the bus transactions issued. -/
structure ReadTouchOut where
  result : Except DriverError (Option TouchPoint)
  state : GT911
  busOps : List BusOp

/-- Modelled from the spec: `GT911::read_touch` of `gt911.rs` (not under
src/), per spec sections 4.1 and 6 — a status read first; if the status shows
no valid touch data it returns `Idle` (`none`) with no further transaction and
no state change; otherwise it reads the first contact's raw coordinate
registers, issues the acknowledgment/clear write (which clears the
controller's status so the next event can be reported), and returns the raw
coordinates unscaled. -/
def GT911.read_touch (s : GT911) : ReadTouchOut :=
  if statusValid s.regs then
    ⟨.ok (some ⟨s.regs.pointX, s.regs.pointY⟩),
      ⟨{ s.regs with bufferReady := false, touchCount := 0 }, s.initDone⟩,
      [.readStatus, .readPointRegs, .writeAck]⟩
  else
    ⟨.ok none, s, [.readStatus]⟩

/-- **C4.** `reset` is idempotent: for every `n ≥ 1`, calling it `n` times in
sequence leaves the controller in exactly the state one call produces, and a
subsequent `read_touch` behaves identically in both cases. -/
theorem reset_idempotent (n : Nat) (s : GT911) (h : 1 ≤ n) :
    GT911.resetN n s = (GT911.reset s).state ∧
    (GT911.resetN n s).read_touch.result = (GT911.reset s).state.read_touch.result ∧
    (GT911.resetN n s).read_touch.state = (GT911.reset s).state.read_touch.state ∧
    (GT911.resetN n s).read_touch.busOps = (GT911.reset s).state.read_touch.busOps := by
  have key : ∀ m t, GT911.resetN (m + 1) t = (GT911.reset t).state := by
    intro m
    induction m with
    | zero => intro t; rfl
    | succ k ih =>
        intro t
        have : GT911.resetN (k + 1 + 1) t =
            GT911.resetN (k + 1) (GT911.reset t).state := rfl
        rw [this, ih]
        rfl
  obtain ⟨m, rfl⟩ : ∃ m, n = m + 1 := ⟨n - 1, by omega⟩
  rw [key m s]
  exact ⟨rfl, rfl, rfl, rfl⟩

/-- Witness for C4: three resets from an arbitrary dirty state equal one. -/
theorem reset_idempotent_witness :
    GT911.resetN 3 ⟨⟨true, 5, 17, 23⟩, false⟩ =
      (GT911.reset ⟨⟨true, 5, 17, 23⟩, false⟩).state ∧
    (GT911.resetN 3 ⟨⟨true, 5, 17, 23⟩, false⟩).read_touch.result =
      (GT911.reset ⟨⟨true, 5, 17, 23⟩, false⟩).state.read_touch.result ∧
    (GT911.resetN 3 ⟨⟨true, 5, 17, 23⟩, false⟩).read_touch.state =
      (GT911.reset ⟨⟨true, 5, 17, 23⟩, false⟩).state.read_touch.state ∧
    (GT911.resetN 3 ⟨⟨true, 5, 17, 23⟩, false⟩).read_touch.busOps =
      (GT911.reset ⟨⟨true, 5, 17, 23⟩, false⟩).state.read_touch.busOps :=
  reset_idempotent 3 ⟨⟨true, 5, 17, 23⟩, false⟩ (by decide)

/-- **C5.** When the controller reports a valid touch point, `read_touch`
returns `Contact` with exactly the raw register coordinates (no scaling or
rotation), and the acknowledgment/clear write is issued on the bus before
returning. -/
theorem read_touch_contact_raw_and_ack (s : GT911)
    (h : statusValid s.regs = true) :
    s.read_touch.result = .ok (some ⟨s.regs.pointX, s.regs.pointY⟩) ∧
    s.read_touch.busOps = [.readStatus, .readPointRegs, .writeAck] := by
  simp [GT911.read_touch, h]

/-- Witness for C5: the spec's end-to-end scenario — after a reset, the bus
reports one touch point at raw coordinates (100, 200); `read_touch` returns
`Contact` at (100, 200) and the acknowledgment write is on the bus. -/
theorem read_touch_contact_raw_and_ack_witness :
    (GT911.read_touch ⟨⟨true, 1, 100, 200⟩, true⟩).result =
      .ok (some ⟨100, 200⟩) ∧
    (GT911.read_touch ⟨⟨true, 1, 100, 200⟩, true⟩).busOps =
      [.readStatus, .readPointRegs, .writeAck] :=
  read_touch_contact_raw_and_ack ⟨⟨true, 1, 100, 200⟩, true⟩ (by decide)

/-- **C6.** When the status read indicates no valid touch data, `read_touch`
returns `Idle` without error and issues no transaction beyond the status
read; the state is unchanged, so a second call returns `Idle` as well. -/
theorem read_touch_idle_fast_path (s : GT911)
    (h : statusValid s.regs = false) :
    s.read_touch.result = .ok none ∧
    s.read_touch.busOps = [.readStatus] ∧
    s.read_touch.state = s ∧
    s.read_touch.state.read_touch.result = .ok none := by
  refine ⟨?_, ?_, ?_, ?_⟩ <;> simp [GT911.read_touch, h]

/-- Witness for C6: a controller with the buffer-ready flag clear. -/
theorem read_touch_idle_fast_path_witness :
    (GT911.read_touch ⟨⟨false, 0, 0, 0⟩, true⟩).result = .ok none ∧
    (GT911.read_touch ⟨⟨false, 0, 0, 0⟩, true⟩).busOps = [.readStatus] ∧
    (GT911.read_touch ⟨⟨false, 0, 0, 0⟩, true⟩).state = ⟨⟨false, 0, 0, 0⟩, true⟩ ∧
    (GT911.read_touch ⟨⟨false, 0, 0, 0⟩, true⟩).state.read_touch.result =
      .ok none :=
  read_touch_idle_fast_path ⟨⟨false, 0, 0, 0⟩, true⟩ (by decide)

/-- An LVGL pointer event as produced by
`PointerInputData::Touch(Point::new(x, y)).pressed()/.released().once()`. -/
inductive PointerEvent
  | pressed (x y : Int)
  | released (x y : Int)
  deriving DecidableEq, Repr

/-- The pointer-input callback of `src/src/main.rs:118-127`: a `Contact`
sample becomes a momentary pressed event at those coordinates, an `Idle`
sample becomes a released event at the origin `(0, 0)`.  The `.unwrap()` on
the `read_touch` result panics on a bus error, aborting the program; the
abort is modelled as `none`. -/
def read_touchscreen_cb (touch : Except DriverError (Option TouchPoint)) :
    Option PointerEvent :=
  match touch with
  | .ok (some tp) => some (.pressed (tp.x : Int) (tp.y : Int))
  | .ok none => some (.released 0 0)
  | .error _ => none

/-- One iteration of the main tick loop of `src/src/main.rs:175-184` as it
affects the pointer input: the callback runs on the tick's touch sample; if
it aborts (the `.unwrap()` panicked) there is no next tick, otherwise the
loop continues with the next tick counter. -/
def tickStep (sample : Except DriverError (Option TouchPoint)) (tick : Nat) :
    Option Nat :=
  match read_touchscreen_cb sample with
  | some _ => some (tick + 1)
  | none => none

/-- **C7 counterexample.** At a concrete tick whose `read_touch` result is a
bus error, the claim "the adapter yields no input event for that tick and the
system continues to the next tick" is false: the callback's `.unwrap()`
aborts, so the loop does not reach tick 1. -/
theorem tick_bus_error_not_continue :
    ¬ (read_touchscreen_cb (.error .BusError) = none ∧
        tickStep (.error .BusError) 0 = some 1) := by
  decide

/-- **C7 (amended).** For every tick in which `read_touch` returns an error,
the adapter callback unwraps the error and panics: no input event is
produced, and the program aborts instead of continuing to the next tick.
(The driver itself surfaces the error without retrying; the retry-next-tick
self-healing described by the spec is not what the adapter does.) -/
theorem tick_bus_error_aborts (e : DriverError) (tick : Nat) :
    read_touchscreen_cb (.error e) = none ∧
    tickStep (.error e) tick = none := by
  exact ⟨rfl, rfl⟩

/-- **C8.** On every poll, the pointer-input callback maps a `Contact` sample
to a pressed event at exactly the sample's coordinates, and an `Idle` sample
to a released event at the origin. -/
theorem pointer_cb_maps_samples (tp : TouchPoint) :
    read_touchscreen_cb (.ok (some tp)) =
      some (.pressed (tp.x : Int) (tp.y : Int)) ∧
    read_touchscreen_cb (.ok none) = some (.released 0 0) :=
  ⟨rfl, rfl⟩

/-- A touch-controller-relevant step of `main` (`src/src/main.rs`), in program
order. -/
inductive MainEvent
  | createI2cBus
  | createLcdPanel
  | registerDisplay
  | createTouchHandle
  | resetTouch
  | registerPointer
  | readTouch
  deriving DecidableEq, Repr

/-- The trace of touch-controller operations `main` performs, in program
order (`src/src/main.rs:61-130` then the tick loop at lines 175-184): the
I2C bus, panel and display come up first, the GT911 handle is created (line
114), `reset` is called (line 115), the pointer callback is registered (line
130), and only then does each of the `ticks` loop iterations poll
`read_touch` through the registered callback. -/
def mainTrace (ticks : Nat) : List MainEvent :=
  [.createI2cBus, .createLcdPanel, .registerDisplay, .createTouchHandle,
    .resetTouch, .registerPointer] ++ List.replicate ticks .readTouch

/-- **C9.** In the startup sequence of `main`, `reset` precedes every
`read_touch`: wherever `read_touch` occurs in the trace, `resetTouch` sits at
the earlier index 4, so no `read_touch` executes without a prior completed
reset. -/
theorem reset_before_any_read (n j : Nat)
    (h : (mainTrace n)[j]? = some .readTouch) :
    (mainTrace n)[4]? = some .resetTouch ∧ 4 < j := by
  refine ⟨by simp [mainTrace], ?_⟩
  by_contra hlt
  push_neg at hlt
  interval_cases j <;> simp [mainTrace] at h

/-- Witness for C9: with a single loop tick, the only `read_touch` is at
index 6, after the reset at index 4. -/
theorem reset_before_any_read_witness :
    (mainTrace 1)[4]? = some .resetTouch ∧ 4 < 6 :=
  reset_before_any_read 1 6 (by decide)

/-- An LVGL damage rectangle (`refresh.area` of `src/src/main.rs:98-108`),
inclusive on both bounds, in the display's signed coordinate type. -/
structure LvglArea where
  x1 : Int
  y1 : Int
  x2 : Int
  y2 : Int
  deriving DecidableEq, Repr

/-- A pixel region with exclusive upper bounds in the signed coordinates the
flush callback passes on. -/
structure PixelRegionI where
  x1 : Int
  y1 : Int
  x2 : Int
  y2 : Int
  deriving DecidableEq, Repr

/-- The number of pixels a signed-coordinate region spans. -/
def PixelRegionI.span (r : PixelRegionI) : Int :=
  (r.x2 - r.x1) * (r.y2 - r.y1)

/-- The flush callback of `src/src/main.rs:98-108`: it hands
`set_pixels_lvgl_color` the damage rectangle's `x1`, `y1` unchanged and its
inclusive upper bounds incremented, `x2 + 1` and `y2 + 1`. -/
def refreshRegion (a : LvglArea) : PixelRegionI :=
  ⟨a.x1, a.y1, a.x2 + 1, a.y2 + 1⟩

/-- **C10.** For every damage rectangle (a sub-region of the 800x480 display
with inclusive bounds, `x1 ≤ x2` and `y1 ≤ y2`), the region the flush
callback hands to `set_pixels` has strictly increasing exclusive bounds and
spans exactly `(x2 - x1 + 1) * (y2 - y1 + 1)` pixels — the exact damaged
area. -/
theorem refresh_region_exact (a : LvglArea)
    (hx0 : 0 ≤ a.x1) (hx : a.x1 ≤ a.x2) (hxr : a.x2 < 800)
    (hy0 : 0 ≤ a.y1) (hy : a.y1 ≤ a.y2) (hyr : a.y2 < 480) :
    (refreshRegion a).x1 < (refreshRegion a).x2 ∧
    (refreshRegion a).y1 < (refreshRegion a).y2 ∧
    (refreshRegion a).span = (a.x2 - a.x1 + 1) * (a.y2 - a.y1 + 1) := by
  refine ⟨?_, ?_, ?_⟩
  · simp only [refreshRegion]; omega
  · simp only [refreshRegion]; omega
  · simp only [refreshRegion, PixelRegionI.span]
    ring_nf

/-- Witness for C10: the 800x12-line stripe LVGL flushes with the configured
12-line draw buffer, damage rectangle (0, 0) to (799, 11). -/
theorem refresh_region_exact_witness :
    (refreshRegion ⟨0, 0, 799, 11⟩).x1 < (refreshRegion ⟨0, 0, 799, 11⟩).x2 ∧
    (refreshRegion ⟨0, 0, 799, 11⟩).y1 < (refreshRegion ⟨0, 0, 799, 11⟩).y2 ∧
    (refreshRegion ⟨0, 0, 799, 11⟩).span = (799 - 0 + 1) * (11 - 0 + 1) :=
  refresh_region_exact ⟨0, 0, 799, 11⟩ (by decide) (by decide) (by decide)
    (by decide) (by decide) (by decide)

end LvglSlider
